import Mathlib

/-!
Shallow embedding of the WhatsApp webhook service in `main.py`.

The program is a FastAPI application with two routes:
  * `GET /` (`index`) returning a fixed JSON payload, and
  * `POST /message` (`reply`) which extracts the sender from the form field
    `From`, calls the OpenAI chat-completion API with a two-message prompt,
    stores the exchange as a `Conversation` row (rolling back and logging on
    `SQLAlchemyError`), sends the generated text back via `send_message`, and
    returns an empty body.

External services (the completion API, the database commit, the outbound
messenger) are modelled as oracles in an `Env` record; every observable side
effect of a request (prints, API calls, rows added/committed, rollbacks, log
lines, outbound sends, session lifecycle) is recorded in a `Trace`.
Python exceptions are modelled with `Except`; an exception that escapes the
handler surfaces as the framework's default error response.
-/

set_option autoImplicit false

/-- One role-tagged chat message, as in the `messages` list of `reply`. -/
structure ChatMsg where
  role : String
  content : String
deriving DecidableEq, Repr

/-- The argument record of the `openai.ChatCompletion.create` call in `reply`.
`temperature_tenths` holds ten times the Python float `0.5` so the record
stays decidable; the call site uses `5`. -/
structure CompletionRequest where
  model : String
  messages : List ChatMsg
  max_tokens : Nat
  n : Nat
  stop : Option String
  temperature_tenths : Nat
deriving DecidableEq, Repr

/-- The `Conversation` model of `models.py` as constructed by `reply`
(`sender`, `message`, `response`; the primary key is assigned by the
database at commit time and is therefore part of the persistence oracle). -/
structure Conversation where
  sender : String
  message : String
  response : String
deriving DecidableEq, Repr

/-- The only database exception class caught by `reply` (`SQLAlchemyError`). -/
inductive DbError where
  | sqlalchemyError (msg : String)
deriving DecidableEq, Repr

/-- Python exceptions that can escape the handler in this model. -/
inductive Exn where
  | keyError (key : String)
  | indexError
  | apiError (msg : String)
  | sendError (msg : String)
deriving DecidableEq, Repr

/-- A SQLAlchemy session as seen by `get_db`: all that matters for the
resource discipline is whether `close()` has been called. -/
structure Session where
  closed : Bool
deriving DecidableEq, Repr

/-- The observable side effects of handling one request. -/
structure Trace where
  prints : List String
  completionCalls : List CompletionRequest
  persistAttempts : List Conversation
  rowsCommitted : List (Nat × Conversation)
  rollbacks : Nat
  infoLogs : List String
  errorLogs : List String
  sentMessages : List (String × String)
  sessionAcquired : Bool
  sessionClosed : Bool
deriving DecidableEq, Repr

/-- The empty trace, before any effect has happened. -/
def Trace.empty : Trace :=
  { prints := [], completionCalls := [], persistAttempts := [],
    rowsCommitted := [], rollbacks := 0, infoLogs := [], errorLogs := [],
    sentMessages := [], sessionAcquired := false, sessionClosed := false }

/-- The behaviour of the three external collaborators during one request:
the completion API, the database `add`/`commit` step (returning the assigned
row id on success, raising `SQLAlchemyError` on failure), and the Twilio
`send_message` helper. -/
structure Env where
  completion : CompletionRequest → Except Exn String
  persist : Conversation → Except DbError Nat
  send : String → String → Except Exn Unit

/-- A form-encoded request payload, as a list of field/value pairs. -/
abbrev FormData := List (String × String)

/-- The HTTP-level result of a request: a 200 response with a body, a 422
validation error from FastAPI's `Form()` extraction, or the framework's
default error response for an unhandled exception. -/
inductive HttpOutcome where
  | ok (body : String)
  | validationError
  | serverError (e : Exn)
deriving DecidableEq, Repr

/-- Fuel-indexed worker for `pySplit`; the fuel bounds the recursion and is
always at least the length of the string being split. -/
def pySplitAux (sep : List Char) : Nat → List Char → List (List Char)
  | _, [] => [[]]
  | 0, s => [s]
  | fuel + 1, c :: rest =>
    if sep.isPrefixOf (c :: rest) then
      [] :: pySplitAux sep fuel ((c :: rest).drop sep.length)
    else
      match pySplitAux sep fuel rest with
      | [] => [[c]]
      | g :: gs => (c :: g) :: gs

/-- Python's `str.split(sep)` for a non-empty separator: split on each
leftmost non-overlapping occurrence of `sep`, keeping empty pieces. -/
def pySplit (sep s : List Char) : List (List Char) :=
  pySplitAux sep s.length s

/-- Python's `sep in s` for lists of characters: some tail of `s` starts
with `sep`. -/
def occursIn (sep : List Char) : List Char → Bool
  | [] => sep.isEmpty
  | c :: rest => sep.isPrefixOf (c :: rest) || occursIn sep rest

/-- The separator `"whatsapp:"` used on line 38 of `main.py`. -/
def waSep : List Char := "whatsapp:".data

/-- Python's `s.split(sep)[-1]`: the last piece of the split, or an
`IndexError` if the split produced no pieces. -/
def splitLast (sep : List Char) (s : String) : Except Exn String :=
  match (pySplit sep s.data).getLast? with
  | some cs => Except.ok (String.mk cs)
  | none => Except.error Exn.indexError

/-- Lookup of a field in form data (first binding wins), as an `Option`. -/
def formGet (form : FormData) (key : String) : Option String :=
  (form.find? (fun p => p.fst == key)).map Prod.snd

/-- Python's `form_data[key]`: raises `KeyError` when the field is absent. -/
def pyFormIndex (form : FormData) (key : String) : Except Exn String :=
  match formGet form key with
  | some v => Except.ok v
  | none => Except.error (Exn.keyError key)

/-- The fixed system-persona instruction appended to the prompt on line 43
of `main.py`. -/
def personaText : String :=
  "You\x27re an experienced chef specialized in mediterranean dishes wit many years of experience, a passionate by very short and easy recipes to make at home. Your answers contain 1600 characters maximum. You understand nothing but cooking."

/-- The exact `ChatCompletion.create` argument record that `reply` builds
for an inbound body `b`. -/
def theRequest (b : String) : CompletionRequest :=
  { model := "gpt-4",
    messages := [{ role := "user", content := b }] ++
      [{ role := "system", content := personaText }],
    max_tokens := 1000, n := 1, stop := none, temperature_tenths := 5 }

/-- The body of the `POST /message` handler `reply` (lines 35-71 of
`main.py`), given the validated `Body` form field, the full form payload,
the per-request session, and the external-service oracles.  Returns the
handler's result (`Except.error` = an uncaught Python exception), the final
session, and the side-effect trace. -/
def reply (env : Env) (form : FormData) (Body : String) (db : Session) :
    Except Exn String × Session × Trace :=
  match pyFormIndex form "From" with
  | Except.error e => (Except.error e, db, Trace.empty)
  | Except.ok fromValue =>
    match splitLast waSep fromValue with
    | Except.error e => (Except.error e, db, Trace.empty)
    | Except.ok whatsapp_number =>
      let t0 := { Trace.empty with
        prints := ["Sending the ChatGPT response to this number: " ++
          whatsapp_number] }
      let messages : List ChatMsg := [{ role := "user", content := Body }]
      let messages := messages ++ [{ role := "system", content := personaText }]
      let request : CompletionRequest :=
        { model := "gpt-4", messages := messages, max_tokens := 1000,
          n := 1, stop := none, temperature_tenths := 5 }
      let t1 := { t0 with completionCalls := t0.completionCalls ++ [request] }
      match env.completion request with
      | Except.error e => (Except.error e, db, t1)
      | Except.ok chatgpt_response =>
        let t2 := { t1 with prints := t1.prints ++ [chatgpt_response] }
        let conversation : Conversation :=
          { sender := whatsapp_number, message := Body,
            response := chatgpt_response }
        let t3 := { t2 with
          persistAttempts := t2.persistAttempts ++ [conversation] }
        let t4 :=
          match env.persist conversation with
          | Except.ok cid =>
            { t3 with
              rowsCommitted := t3.rowsCommitted ++ [(cid, conversation)]
              infoLogs := t3.infoLogs ++
                ["Conversation #" ++ toString cid ++ " stored in database"] }
          | Except.error (DbError.sqlalchemyError msg) =>
            { t3 with
              rollbacks := t3.rollbacks + 1
              errorLogs := t3.errorLogs ++
                ["Error storing conversation in database: " ++ msg] }
        let t5 := { t4 with
          sentMessages := t4.sentMessages ++
            [(whatsapp_number, chatgpt_response)] }
        match env.send whatsapp_number chatgpt_response with
        | Except.error e => (Except.error e, db, t5)
        | Except.ok _ => (Except.ok "", db, t5)

/-- The `get_db` dependency (lines 22-27 of `main.py`): create a session,
run the handler with it, and close the session in the `finally` block no
matter how the handler exits. -/
def get_db (run : Session → Except Exn String × Session × Trace) :
    Except Exn String × Session × Trace :=
  let db : Session := { closed := false }
  let r := run db
  (r.fst, { r.snd.fst with closed := true }, r.snd.snd)

/-- How FastAPI turns the handler's result into an HTTP outcome: a returned
value becomes a 200 response, an uncaught exception becomes the framework's
default error response. -/
def outcomeOf : Except Exn String → HttpOutcome
  | Except.ok body => HttpOutcome.ok body
  | Except.error e => HttpOutcome.serverError e

/-- The full `POST /message` endpoint: FastAPI first extracts the required
`Body` form field (a missing field is a 422 validation error and the handler
never runs), then runs `reply` inside the `get_db` dependency and maps the
result to an HTTP outcome.  The trace records that the session was acquired
and whether it ended up closed. -/
def postMessage (env : Env) (form : FormData) : HttpOutcome × Trace :=
  match formGet form "Body" with
  | none => (HttpOutcome.validationError, Trace.empty)
  | some b =>
    let r := get_db (fun db => reply env form b db)
    (outcomeOf r.fst,
      { r.snd.snd with
        sessionAcquired := true
        sessionClosed := r.snd.fst.closed })

/-- Application state visible to a request (here: the stored rows); the
`GET /` route neither reads nor writes it. -/
structure AppState where
  conversations : List (Nat × Conversation)
deriving DecidableEq, Repr

/-- The `GET /` handler `index` (lines 30-32 of `main.py`): returns status
200 with the fixed JSON object and leaves the application state untouched. -/
def index (st : AppState) : (Nat × List (String × String)) × AppState :=
  ((200, [("msg", "working")]), st)


theorem pySplitAux_ne_nil (sep : List Char) (fuel : Nat) (s : List Char) :
    pySplitAux sep fuel s ≠ [] := by
  induction fuel generalizing s with
  | zero => cases s <;> simp [pySplitAux]
  | succ n ih =>
    cases s with
    | nil => simp [pySplitAux]
    | cons c rest =>
      simp only [pySplitAux]
      split
      · simp
      · split <;> simp

theorem splitLast_isOk (sep : List Char) (s : String) :
    ∃ t, splitLast sep s = Except.ok t := by
  unfold splitLast
  cases h : (pySplit sep s.data).getLast? with
  | some cs => exact ⟨String.mk cs, rfl⟩
  | none =>
    exact absurd (List.getLast?_eq_none_iff.mp h)
      (pySplitAux_ne_nil sep s.data.length s.data)

theorem isPrefixOf_append_self (l t : List Char) :
    l.isPrefixOf (l ++ t) = true := by
  induction l with
  | nil => simp [List.isPrefixOf]
  | cons a as ih => simp [List.isPrefixOf, ih]

theorem pySplitAux_cons_sep (sep t : List Char) (hsep : sep ≠ []) (fuel : Nat) :
    pySplitAux sep (fuel + 1) (sep ++ t) = [] :: pySplitAux sep fuel t := by
  cases sep with
  | nil => exact absurd rfl hsep
  | cons a sep' =>
    have hg : (a :: sep').isPrefixOf ((a :: sep') ++ t) = true :=
      isPrefixOf_append_self _ t
    have hd : ((a :: sep') ++ t).drop (a :: sep').length = t :=
      List.drop_left _ t
    simp only [List.cons_append] at hg hd
    simp only [pySplitAux, List.append_eq, hg, if_true, hd]

theorem pySplitAux_eq_single (sep : List Char) (fuel : Nat) (s : List Char)
    (h : occursIn sep s = false) (hl : s.length ≤ fuel) :
    pySplitAux sep fuel s = [s] := by
  induction fuel generalizing s with
  | zero =>
    cases s with
    | nil => rfl
    | cons c rest => simp at hl
  | succ n ih =>
    cases s with
    | nil => rfl
    | cons c rest =>
      have h' : (sep.isPrefixOf (c :: rest) || occursIn sep rest) = false := h
      simp only [Bool.or_eq_false_iff] at h'
      have hr := ih rest h'.right
        (Nat.succ_le_succ_iff.mp (by simpa using hl))
      simp only [pySplitAux, h'.left, Bool.false_eq_true, if_false, hr]

theorem splitLast_no_occur (f : String) (h : occursIn waSep f.data = false) :
    splitLast waSep f = Except.ok f := by
  unfold splitLast pySplit
  rw [pySplitAux_eq_single waSep f.data.length f.data h (Nat.le_refl _)]
  rfl

theorem waSep_length : waSep.length = 9 := rfl

theorem splitLast_wa (num : String) (h : occursIn waSep num.data = false) :
    splitLast waSep ("whatsapp:" ++ num) = Except.ok num := by
  unfold splitLast pySplit
  have hd : ("whatsapp:" ++ num).data = waSep ++ num.data :=
    String.data_append _ num
  rw [hd]
  have hlen : (waSep ++ num.data).length = (8 + num.data.length) + 1 := by
    rw [List.length_append, waSep_length]
    omega
  rw [hlen, pySplitAux_cons_sep waSep num.data (by decide),
    pySplitAux_eq_single waSep (8 + num.data.length) num.data h (by omega)]
  rfl

/-- A run of the external services in which every collaborator succeeds. -/
def envHappy : Env :=
  { completion := fun _ => Except.ok "Try this hummus recipe."
    persist := fun _ => Except.ok 1
    send := fun _ _ => Except.ok () }

/-- A run in which the database raises `SQLAlchemyError` on `add`/`commit`. -/
def envDbDown : Env :=
  { completion := fun _ => Except.ok "Try this hummus recipe."
    persist := fun _ => Except.error (DbError.sqlalchemyError "connection lost")
    send := fun _ _ => Except.ok () }

/-- A run in which the completion API raises. -/
def envApiDown : Env :=
  { completion := fun _ => Except.error (Exn.apiError "rate limited")
    persist := fun _ => Except.ok 1
    send := fun _ _ => Except.ok () }

/-- C1: when the persistence step fails, the handler rolls back, logs the
error, still sends the generated text to the extracted sender, and returns
the empty-body success response. -/
theorem c1_persistence_failure_suppressed (env : Env) (form : FormData)
    (b f num resp m : String)
    (hB : formGet form "Body" = some b)
    (hF : formGet form "From" = some f)
    (hS : splitLast waSep f = Except.ok num)
    (hC : env.completion (theRequest b) = Except.ok resp)
    (hP : env.persist (Conversation.mk num b resp) =
      Except.error (DbError.sqlalchemyError m))
    (hSend : env.send num resp = Except.ok ()) :
    (postMessage env form).fst = HttpOutcome.ok "" ∧
    (postMessage env form).snd.rollbacks = 1 ∧
    (postMessage env form).snd.errorLogs =
      ["Error storing conversation in database: " ++ m] ∧
    (postMessage env form).snd.rowsCommitted = [] ∧
    (postMessage env form).snd.sentMessages = [(num, resp)] := by
  simp only [theRequest, List.singleton_append] at hC
  simp [postMessage, hB, get_db, reply, pyFormIndex, hF, hS, hC, hP, hSend,
    outcomeOf, Trace.empty]

theorem c1_witness :
    (postMessage envDbDown
      [("Body", "How do I make hummus?"),
       ("From", "whatsapp:+15551234567")]).fst = HttpOutcome.ok "" ∧
    (postMessage envDbDown
      [("Body", "How do I make hummus?"),
       ("From", "whatsapp:+15551234567")]).snd.rollbacks = 1 ∧
    (postMessage envDbDown
      [("Body", "How do I make hummus?"),
       ("From", "whatsapp:+15551234567")]).snd.errorLogs =
      ["Error storing conversation in database: " ++ "connection lost"] ∧
    (postMessage envDbDown
      [("Body", "How do I make hummus?"),
       ("From", "whatsapp:+15551234567")]).snd.rowsCommitted = [] ∧
    (postMessage envDbDown
      [("Body", "How do I make hummus?"),
       ("From", "whatsapp:+15551234567")]).snd.sentMessages =
      [("+15551234567", "Try this hummus recipe.")] :=
  c1_persistence_failure_suppressed envDbDown _ "How do I make hummus?"
    "whatsapp:+15551234567" "+15551234567" "Try this hummus recipe."
    "connection lost" rfl rfl rfl rfl rfl rfl

/-- C2: the prompt list passed to the completion API is exactly the user's
raw Body followed by the fixed persona instruction. -/
theorem c2_prompt_two_messages (env : Env) (form : FormData) (b f : String)
    (hB : formGet form "Body" = some b)
    (hF : formGet form "From" = some f) :
    (postMessage env form).snd.completionCalls.map CompletionRequest.messages =
      [[ChatMsg.mk "user" b, ChatMsg.mk "system" personaText]] := by
  obtain ⟨num, hS⟩ := splitLast_isOk waSep f
  cases hc : env.completion (theRequest b) with
  | error e =>
    simp only [theRequest, List.singleton_append] at hc
    simp [postMessage, hB, get_db, reply, pyFormIndex, hF, hS, hc, Trace.empty]
  | ok resp =>
    simp only [theRequest, List.singleton_append] at hc
    cases hp : env.persist (Conversation.mk num b resp) with
    | ok cid =>
      cases hsend : env.send num resp <;>
        simp [postMessage, hB, get_db, reply, pyFormIndex, hF, hS, hc, hp,
          hsend, Trace.empty]
    | error de =>
      cases de with
      | sqlalchemyError m =>
        cases hsend : env.send num resp <;>
          simp [postMessage, hB, get_db, reply, pyFormIndex, hF, hS, hc, hp,
            hsend, Trace.empty]

theorem c2_witness :
    (postMessage envHappy
      [("Body", "How do I make hummus?"),
       ("From", "whatsapp:+15551234567")]).snd.completionCalls.map
        CompletionRequest.messages =
      [[ChatMsg.mk "user" "How do I make hummus?",
        ChatMsg.mk "system" personaText]] :=
  c2_prompt_two_messages envHappy _ "How do I make hummus?"
    "whatsapp:+15551234567" rfl rfl

/-- C3: for a well-formed From value (the prefix followed by a number that
does not itself contain the prefix), the sender used for the storage attempt
and for the outbound reply is exactly the part after the prefix. -/
theorem c3_sender_after_prefix (env : Env) (form : FormData)
    (b num resp : String)
    (hB : formGet form "Body" = some b)
    (hF : formGet form "From" = some ("whatsapp:" ++ num))
    (hNum : occursIn waSep num.data = false)
    (hC : env.completion (theRequest b) = Except.ok resp) :
    (postMessage env form).snd.persistAttempts.map Conversation.sender =
      [num] ∧
    (postMessage env form).snd.sentMessages.map Prod.fst = [num] := by
  have hS := splitLast_wa num hNum
  simp only [theRequest, List.singleton_append] at hC
  cases hp : env.persist (Conversation.mk num b resp) with
  | ok cid =>
    cases hsend : env.send num resp <;>
      simp [postMessage, hB, get_db, reply, pyFormIndex, hF, hS, hC, hp, hsend, Trace.empty]
  | error de =>
    cases de with
    | sqlalchemyError m =>
      cases hsend : env.send num resp <;>
        simp [postMessage, hB, get_db, reply, pyFormIndex, hF, hS, hC, hp,
          hsend, Trace.empty]

theorem c3_witness :
    (postMessage envHappy
      [("Body", "How do I make hummus?"),
       ("From", "whatsapp:" ++ "+15551234567")]).snd.persistAttempts.map
        Conversation.sender = ["+15551234567"] ∧
    (postMessage envHappy
      [("Body", "How do I make hummus?"),
       ("From", "whatsapp:" ++ "+15551234567")]).snd.sentMessages.map
        Prod.fst = ["+15551234567"] :=
  c3_sender_after_prefix envHappy _ "How do I make hummus?" "+15551234567"
    "Try this hummus recipe." rfl rfl (by decide) rfl

/-- C4: a completion-API failure is not caught: the request fails with the
framework's default error response, nothing is persisted (not even
attempted), and the messenger is never invoked. -/
theorem c4_completion_failure_propagates (env : Env) (form : FormData)
    (b f : String) (e : Exn)
    (hB : formGet form "Body" = some b)
    (hF : formGet form "From" = some f)
    (hC : env.completion (theRequest b) = Except.error e) :
    (postMessage env form).fst = HttpOutcome.serverError e ∧
    (postMessage env form).snd.persistAttempts = [] ∧
    (postMessage env form).snd.rowsCommitted = [] ∧
    (postMessage env form).snd.rollbacks = 0 ∧
    (postMessage env form).snd.sentMessages = [] := by
  obtain ⟨num, hS⟩ := splitLast_isOk waSep f
  simp only [theRequest, List.singleton_append] at hC
  simp [postMessage, hB, get_db, reply, pyFormIndex, hF, hS, hC, outcomeOf,
    Trace.empty]

theorem c4_witness :
    (postMessage envApiDown
      [("Body", "How do I make hummus?"),
       ("From", "whatsapp:+15551234567")]).fst =
      HttpOutcome.serverError (Exn.apiError "rate limited") ∧
    (postMessage envApiDown
      [("Body", "How do I make hummus?"),
       ("From", "whatsapp:+15551234567")]).snd.persistAttempts = [] ∧
    (postMessage envApiDown
      [("Body", "How do I make hummus?"),
       ("From", "whatsapp:+15551234567")]).snd.rowsCommitted = [] ∧
    (postMessage envApiDown
      [("Body", "How do I make hummus?"),
       ("From", "whatsapp:+15551234567")]).snd.rollbacks = 0 ∧
    (postMessage envApiDown
      [("Body", "How do I make hummus?"),
       ("From", "whatsapp:+15551234567")]).snd.sentMessages = [] :=
  c4_completion_failure_propagates envApiDown _ "How do I make hummus?"
    "whatsapp:+15551234567" (Exn.apiError "rate limited") rfl rfl rfl

/-- C5: when the persistence step succeeds, exactly one Conversation row is
created, whose sender, message and response are the extracted sender, the
request Body and the generated completion text. -/
theorem c5_persist_success_single_row (env : Env) (form : FormData)
    (b f num resp : String) (cid : Nat)
    (hB : formGet form "Body" = some b)
    (hF : formGet form "From" = some f)
    (hS : splitLast waSep f = Except.ok num)
    (hC : env.completion (theRequest b) = Except.ok resp)
    (hP : env.persist (Conversation.mk num b resp) = Except.ok cid) :
    (postMessage env form).snd.persistAttempts =
      [Conversation.mk num b resp] ∧
    (postMessage env form).snd.rowsCommitted =
      [(cid, Conversation.mk num b resp)] ∧
    (postMessage env form).snd.rollbacks = 0 := by
  simp only [theRequest, List.singleton_append] at hC
  cases hsend : env.send num resp <;>
    simp [postMessage, hB, get_db, reply, pyFormIndex, hF, hS, hC, hP, hsend, Trace.empty]

theorem c5_witness :
    (postMessage envHappy
      [("Body", "How do I make hummus?"),
       ("From", "whatsapp:+15551234567")]).snd.persistAttempts =
      [Conversation.mk "+15551234567" "How do I make hummus?"
        "Try this hummus recipe."] ∧
    (postMessage envHappy
      [("Body", "How do I make hummus?"),
       ("From", "whatsapp:+15551234567")]).snd.rowsCommitted =
      [(1, Conversation.mk "+15551234567" "How do I make hummus?"
        "Try this hummus recipe.")] ∧
    (postMessage envHappy
      [("Body", "How do I make hummus?"),
       ("From", "whatsapp:+15551234567")]).snd.rollbacks = 0 :=
  c5_persist_success_single_row envHappy _ "How do I make hummus?"
    "whatsapp:+15551234567" "+15551234567" "Try this hummus recipe." 1
    rfl rfl rfl rfl rfl

/-- C6 counterexample: a request whose From lacks the protocol prefix does
not fail: the split raises nothing, and with all collaborators healthy, the
request succeeds with an empty body. -/
theorem c6_counterexample :
    splitLast waSep "+15551234567" = Except.ok "+15551234567" ∧
    (postMessage envHappy
      [("Body", "How do I make hummus?"),
       ("From", "+15551234567")]).fst = HttpOutcome.ok "" :=
  ⟨rfl, rfl⟩

/-- C6 (amended): a From value that does not contain the whatsapp: prefix
raises no exception at the prefix-split; the split returns the whole From
string as the sender identifier. -/
theorem c6_amended_split_never_raises (f : String)
    (h : occursIn waSep f.data = false) :
    splitLast waSep f = Except.ok f :=
  splitLast_no_occur f h

theorem c6_witness :
    splitLast waSep "+15557654321" = Except.ok "+15557654321" :=
  c6_amended_split_never_raises "+15557654321" (by decide)

/-- C7: splitting a prefixless From yields the whole string unchanged with
no exception, and the request is handled exactly as if the From value had
carried the whatsapp: prefix. -/
theorem c7_split_is_prefix_agnostic (env : Env) (b f : String)
    (h : occursIn waSep f.data = false) :
    splitLast waSep f = Except.ok f ∧
    postMessage env [("Body", b), ("From", f)] =
      postMessage env [("Body", b), ("From", "whatsapp:" ++ f)] := by
  refine ⟨splitLast_no_occur f h, ?_⟩
  have h1 : formGet [("Body", b), ("From", f)] "Body" = some b := rfl
  have h2 : formGet [("Body", b), ("From", "whatsapp:" ++ f)] "Body" =
    some b := rfl
  have h1f : formGet [("Body", b), ("From", f)] "From" = some f := rfl
  have h2f : formGet [("Body", b), ("From", "whatsapp:" ++ f)] "From" =
    some ("whatsapp:" ++ f) := rfl
  simp [postMessage, h1, h2, get_db, reply, pyFormIndex, h1f, h2f,
    splitLast_no_occur f h, splitLast_wa f h]

theorem c7_witness :
    splitLast waSep "+15551234567" = Except.ok "+15551234567" ∧
    postMessage envHappy
      [("Body", "How do I make hummus?"), ("From", "+15551234567")] =
      postMessage envHappy
        [("Body", "How do I make hummus?"),
         ("From", "whatsapp:" ++ "+15551234567")] :=
  c7_split_is_prefix_agnostic envHappy "How do I make hummus?"
    "+15551234567" (by decide)

/-- C8: `GET /` returns status 200 with the fixed payload and leaves the
application state untouched, whatever that state is. -/
theorem c8_index_fixed_response (st : AppState) :
    index st = ((200, [("msg", "working")]), st) := rfl

/-- C9: whenever the handler runs (the Body field validated), the
per-request database session is acquired and is closed again on every exit
path, for every behaviour of the external collaborators. -/
theorem c9_session_always_released (env : Env) (form : FormData)
    (b : String) (hB : formGet form "Body" = some b) :
    (postMessage env form).snd.sessionAcquired = true ∧
    (postMessage env form).snd.sessionClosed = true := by
  simp [postMessage, hB, get_db]

theorem c9_witness :
    (postMessage envApiDown
      [("Body", "How do I make hummus?"),
       ("From", "whatsapp:+15551234567")]).snd.sessionAcquired = true ∧
    (postMessage envApiDown
      [("Body", "How do I make hummus?"),
       ("From", "whatsapp:+15551234567")]).snd.sessionClosed = true :=
  c9_session_always_released envApiDown _ "How do I make hummus?" rfl

/-- C10: when the form has a Body but no From field, the handler raises a
KeyError at the form-field access: no completion call, no persistence
attempt, no outbound message. -/
theorem c10_missing_from_keyerror (env : Env) (form : FormData) (b : String)
    (hB : formGet form "Body" = some b)
    (hF : formGet form "From" = none) :
    (postMessage env form).fst =
      HttpOutcome.serverError (Exn.keyError "From") ∧
    (postMessage env form).snd.completionCalls = [] ∧
    (postMessage env form).snd.persistAttempts = [] ∧
    (postMessage env form).snd.rowsCommitted = [] ∧
    (postMessage env form).snd.sentMessages = [] := by
  simp [postMessage, hB, get_db, reply, pyFormIndex, hF, outcomeOf,
    Trace.empty]

theorem c10_witness :
    (postMessage envHappy [("Body", "How do I make hummus?")]).fst =
      HttpOutcome.serverError (Exn.keyError "From") ∧
    (postMessage envHappy
      [("Body", "How do I make hummus?")]).snd.completionCalls = [] ∧
    (postMessage envHappy
      [("Body", "How do I make hummus?")]).snd.persistAttempts = [] ∧
    (postMessage envHappy
      [("Body", "How do I make hummus?")]).snd.rowsCommitted = [] ∧
    (postMessage envHappy
      [("Body", "How do I make hummus?")]).snd.sentMessages = [] :=
  c10_missing_from_keyerror envHappy _ "How do I make hummus?" rfl rfl
